import Mathlib

/-!
Shallow embedding of `src/mistral_strategy.py` (Gl1f/mistral_api_strategy).

The program is a client-side facade over the Mistral chat-completions API
with two request strategies (text, text+image) that keep a per-strategy
message history.  External effects are modelled as explicit inputs:

* the HTTP transport (`requests.post`) is an oracle `response : HttpResponse`
  giving the status code and the extracted `choices[0].message.content`;
  the requests a call issues are collected in a `requests` output list,
  so "no network call was made" is `requests = []`;
* the file system (`open(path, "rb").read()`) is an oracle
  `fs : String → Option (List Nat)` mapping a path to its bytes, `none`
  meaning `FileNotFoundError`;
* the console read in `select_model` (`int(input(...))`) is an explicit
  integer argument;
* a raised Python exception is the `Except.error` branch carrying the
  exception message; a returned value is `Except.ok`.

Crucially, `execute` never reads the strategy's stored `self.history`: it
rebinds it from the `history` parameter (lines 77 and 147), so each
strategy-level call is a pure function of its arguments and the oracles,
returning the strategy's stored history after the call.
-/

namespace MistralApi

/-- The `role` field of a message dict: `"user"` or `"assistant"`. -/
inductive Role
  | user
  | assistant
deriving DecidableEq, Repr

/-- The `content` field of a message dict: a plain string (text strategy
and assistant replies) or the two-part list
`[{"type": "text", "text": t}, {"type": "image_url", "image_url": u}]`
built by the image strategy (lines 164-167). -/
inductive Content
  | text (s : String)
  | parts (textPart : String) (imageUrl : String)
deriving DecidableEq, Repr

/-- One history entry `{"role": ..., "content": ...}`. -/
structure Message where
  role : Role
  content : Content
deriving DecidableEq, Repr

/-- The transport oracle: what `requests.post` returns.  `content` is the
value of `json()["choices"][0]["message"]["content"]`, consulted only on
status 200. -/
structure HttpResponse where
  status_code : Nat
  content : String
deriving DecidableEq, Repr

/-- The JSON body posted to the endpoint: `{"model": ..., "messages": ...}`
(lines 84-87 and 180). -/
structure RequestPayload where
  model : String
  messages : List Message
deriving DecidableEq, Repr

/-- The value an `execute` call returns (when it does not raise): the parsed
response body on 200 (represented by its extracted content), or the string
`f"Error: {status_code}"` on any other status. -/
inductive ExecResult
  | ok (content : String)
  | errorString (s : String)
deriving DecidableEq, Repr

/-- Python `base64.b64encode`: standard RFC 4648 alphabet with `=` padding,
three input bytes per four output characters. -/
def b64Alphabet : List Char :=
  "ABCDEFGHIJKLMNOPQRSTUVWXYZabcdefghijklmnopqrstuvwxyz0123456789+/".toList

/-- The alphabet character for a 6-bit group. -/
def b64Char (n : Nat) : Char := b64Alphabet.getD n 'A'

/-- Base64-encode a byte list (each entry `< 256`). -/
def b64encode : List Nat → List Char
  | [] => []
  | [a] => [b64Char (a / 4), b64Char (a % 4 * 16), '=', '=']
  | [a, b] => [b64Char (a / 4), b64Char (a % 4 * 16 + b / 16), b64Char (b % 16 * 4), '=']
  | a :: b :: c :: rest =>
      b64Char (a / 4) :: b64Char (a % 4 * 16 + b / 16) ::
        b64Char (b % 16 * 4 + c / 64) :: b64Char (c % 64) :: b64encode rest

/-- `base64.b64encode(bytes).decode("utf-8")` as a string. -/
def b64encodeStr (bytes : List Nat) : String := String.mk (b64encode bytes)

/-- Result of `TextRequestStrategy.execute`: the returned value, the
strategy's stored `self.history` after the call (always rebound to a list,
lines 80-83), and the HTTP requests issued. -/
structure TextExecOut where
  result : ExecResult
  history : List Message
  requests : List RequestPayload
deriving DecidableEq, Repr

namespace TextRequestStrategy

/-- `TextRequestStrategy.execute` (lines 56-100).  `self.history` is rebound
from the `history` parameter: `None` starts a fresh one-element list with
the user message, otherwise the user message is appended to the supplied
list.  The full history is posted; on status 200 the assistant reply is
appended and the parsed body returned, otherwise the `"Error: <status>"`
string is returned.  `image_path` is accepted but unused (line 79). -/
def execute (text model : String) (history : Option (List Message))
    (image_path : Option String) (response : HttpResponse) : TextExecOut :=
  let _ := image_path
  let h1 : List Message :=
    match history with
    | none => [⟨Role.user, Content.text text⟩]
    | some h => h ++ [⟨Role.user, Content.text text⟩]
  let data : RequestPayload := ⟨model, h1⟩
  if response.status_code = 200 then
    { result := ExecResult.ok response.content
      history := h1 ++ [⟨Role.assistant, Content.text response.content⟩]
      requests := [data] }
  else
    { result := ExecResult.errorString ("Error: " ++ toString response.status_code)
      history := h1
      requests := [data] }

end TextRequestStrategy

/-- Result of `ImageRequestStrategy.execute`: `outcome` is the returned
value, or `Except.error msg` when the call raises
`Exception(f"Image file not found: {path}")`; `history` is the stored
`self.history` after the call — note that line 147 rebinds it to the
`history` parameter before the file read, so after a raise it is that
parameter unchanged (possibly `none`). -/
structure ImageExecOut where
  outcome : Except String ExecResult
  history : Option (List Message)
  requests : List RequestPayload
deriving Repr

namespace ImageRequestStrategy

/-- Lines 149-159: `self.image_data` starts as `""`; a truthy (non-empty)
`image_path` triggers a byte read, whose result is base64-encoded and
wrapped in the `data:image/jpeg;base64,` URI; a missing file raises. -/
def encodeImage (image_path : Option String) (fs : String → Option (List Nat)) :
    Except String String :=
  match image_path with
  | some p =>
      if p != "" then
        match fs p with
        | some bytes => Except.ok ("data:image/jpeg;base64," ++ b64encodeStr bytes)
        | none => Except.error ("Image file not found: " ++ p)
      else Except.ok ""
  | none => Except.ok ""

/-- `ImageRequestStrategy.execute` (lines 123-193).  After the image-data
step, the user message is the two-part content (text part, image part);
the history handling, posting, and the 200 / non-200 split are as in the
text strategy. -/
def execute (text model : String) (history : Option (List Message))
    (image_path : Option String) (fs : String → Option (List Nat))
    (response : HttpResponse) : ImageExecOut :=
  match encodeImage image_path fs with
  | Except.error msg =>
      { outcome := Except.error msg
        history := history
        requests := [] }
  | Except.ok image_data =>
      let userMsg : Message := ⟨Role.user, Content.parts text image_data⟩
      let h1 : List Message :=
        match history with
        | none => [userMsg]
        | some h => h ++ [userMsg]
      let data : RequestPayload := ⟨model, h1⟩
      if response.status_code = 200 then
        { outcome := Except.ok (ExecResult.ok response.content)
          history := some (h1 ++ [⟨Role.assistant, Content.text response.content⟩])
          requests := [data] }
      else
        { outcome := Except.ok (ExecResult.errorString
            ("Error: " ++ toString response.status_code))
          history := some h1
          requests := [data] }

end ImageRequestStrategy

/-- The facade's `request_strategy` field: `None`, or (by identity) its
`text_request` or `image_request` instance. -/
inductive ActiveStrategy
  | noStrategy
  | textStrategy
  | imageStrategy
deriving DecidableEq, Repr

/-- `ChatFacade` state: the stored histories of its two owned strategy
instances (each rebound by `execute`, hence `Option`), the active strategy,
and the two model catalogs set in `__init__` (lines 208-219). -/
structure ChatFacade where
  text_history : Option (List Message)
  image_history : Option (List Message)
  request_strategy : ActiveStrategy
  models_text : List String
  models_image : List String
deriving Repr

namespace ChatFacade

/-- `ChatFacade.__init__`: both strategies start with an empty history,
no strategy is active, and the model catalogs are fixed. -/
def init : ChatFacade :=
  { text_history := some []
    image_history := some []
    request_strategy := ActiveStrategy.noStrategy
    models_text := ["mistral-small-latest", "open-mistral-nemo", "open-codestral-mamba"]
    models_image := ["pixtral-12b-2409"] }

/-- `ChatFacade.change_strategy` (lines 221-236): sets the active strategy
for `"text"` or `"image"`, otherwise raises `ValueError("Invalid strategy
type")`, leaving the state as it was. -/
def change_strategy (f : ChatFacade) (strategy_type : String) :
    Except String Unit × ChatFacade :=
  if strategy_type = "text" then
    (Except.ok (), { f with request_strategy := ActiveStrategy.textStrategy })
  else if strategy_type = "image" then
    (Except.ok (), { f with request_strategy := ActiveStrategy.imageStrategy })
  else
    (Except.error "Invalid strategy type", f)

/-- `ChatFacade.select_model` (lines 238-265): lists the active strategy's
catalog and reads an integer `l_num` from the console (modelled as the
argument); an index in `range(1, len+1)` returns the 1-based entry,
otherwise `ValueError("Invalid model number")`; with no active strategy,
`ValueError("Invalid strategy type")`. -/
def select_model (f : ChatFacade) (l_num : Int) : Except String String :=
  match f.request_strategy with
  | ActiveStrategy.textStrategy =>
      if 1 ≤ l_num ∧ l_num ≤ (f.models_text.length : Int) then
        Except.ok (f.models_text.getD (l_num - 1).toNat "")
      else
        Except.error "Invalid model number"
  | ActiveStrategy.imageStrategy =>
      if 1 ≤ l_num ∧ l_num ≤ (f.models_image.length : Int) then
        Except.ok (f.models_image.getD (l_num - 1).toNat "")
      else
        Except.error "Invalid model number"
  | ActiveStrategy.noStrategy =>
      Except.error "Invalid strategy type"

/-- Result of `ChatFacade.ask_question`: the returned value (or the raised
exception as `Except.error`), the facade state after the call, and the HTTP
requests issued. -/
structure AskOutcome where
  result : Except String ExecResult
  facade : ChatFacade
  requests : List RequestPayload
deriving Repr

/-- `ChatFacade.ask_question` (lines 267-289): dispatches to the active
strategy's `execute`, passing `text`, `model` and `image_path` but NOT the
history (so `execute` receives `history=None`); with no active strategy,
raises `ValueError("Invalid strategy type")`. -/
def ask_question (f : ChatFacade) (text model : String)
    (image_path : Option String) (fs : String → Option (List Nat))
    (response : HttpResponse) : AskOutcome :=
  match f.request_strategy with
  | ActiveStrategy.textStrategy =>
      let out := TextRequestStrategy.execute text model none image_path response
      { result := Except.ok out.result
        facade := { f with text_history := some out.history }
        requests := out.requests }
  | ActiveStrategy.imageStrategy =>
      let out := ImageRequestStrategy.execute text model none image_path fs response
      { result := out.outcome
        facade := { f with image_history := out.history }
        requests := out.requests }
  | ActiveStrategy.noStrategy =>
      { result := Except.error "Invalid strategy type"
        facade := f
        requests := [] }

/-- `ChatFacade.get_history` (lines 291-306): returns the active strategy's
stored history attribute; with no active strategy, raises
`ValueError("Invalid strategy type")`. -/
def get_history (f : ChatFacade) : Except String (Option (List Message)) :=
  match f.request_strategy with
  | ActiveStrategy.textStrategy => Except.ok f.text_history
  | ActiveStrategy.imageStrategy => Except.ok f.image_history
  | ActiveStrategy.noStrategy => Except.error "Invalid strategy type"

/-- `ChatFacade.clear_history` (lines 308-320): resets the active strategy's
history to `[]`; with no active strategy, raises
`ValueError("Invalid strategy type")`. -/
def clear_history (f : ChatFacade) : Except String Unit × ChatFacade :=
  match f.request_strategy with
  | ActiveStrategy.textStrategy =>
      (Except.ok (), { f with text_history := some [] })
  | ActiveStrategy.imageStrategy =>
      (Except.ok (), { f with image_history := some [] })
  | ActiveStrategy.noStrategy =>
      (Except.error "Invalid strategy type", f)

end ChatFacade

/-- The condition under which `ImageRequestStrategy.execute` performs no
file read or the read succeeds (so the call does not raise): the path is
absent, falsy (`""`), or resolves under `fs`. -/
def imagePathOk (image_path : Option String) (fs : String → Option (List Nat)) : Bool :=
  match image_path with
  | some p => if p != "" then (fs p).isSome else true
  | none => true

/-- The image part the image strategy embeds in the user message: the
base64 data URI of the file's bytes for a truthy resolving path, and the
empty string otherwise. -/
def imageDataOf (image_path : Option String) (fs : String → Option (List Nat)) : String :=
  match image_path with
  | some p =>
      if p != "" then
        match fs p with
        | some bytes => "data:image/jpeg;base64," ++ b64encodeStr bytes
        | none => ""
      else ""
  | none => ""

/-- When the image path is absent, falsy or resolving, the image-data step
returns `imageDataOf` without raising. -/
theorem encodeImage_ok (image_path : Option String) (fs : String → Option (List Nat))
    (h : imagePathOk image_path fs = true) :
    ImageRequestStrategy.encodeImage image_path fs = Except.ok (imageDataOf image_path fs) := by
  cases image_path with
  | none => rfl
  | some p =>
      simp only [imagePathOk] at h
      simp only [ImageRequestStrategy.encodeImage, imageDataOf]
      by_cases hp : (p != "") = true
      · simp only [hp, if_true] at h ⊢
        cases hfs : fs p with
        | none => rw [hfs] at h; simp at h
        | some bytes => rfl
      · simp only [Bool.not_eq_true] at hp
        simp [hp]

/-- The role opposite to `r`. -/
def flipRole : Role → Role
  | Role.user => Role.assistant
  | Role.assistant => Role.user

/-- `rolesFrom r h` holds when the roles in `h` are `r`, then the opposite
of `r`, alternating. -/
def rolesFrom : Role → List Message → Bool
  | _, [] => true
  | r, m :: rest => (m.role == r) && rolesFrom (flipRole r) rest

/-- The spec's alternation invariant: roles alternate user/assistant,
starting with user. -/
def alternatesFromUser (h : List Message) : Bool := rolesFrom Role.user h

/-- The role expected after reading `h` in an alternation starting at `r`. -/
def nextExpected : Role → List Message → Role
  | r, [] => r
  | r, _ :: rest => nextExpected (flipRole r) rest

/-- Which strategy an `execute` call in a session goes through. -/
inductive CallKind
  | textCall
  | imageCall
deriving DecidableEq, Repr

/-- One `execute` call of a session: the strategy used, its arguments, and
the transport oracle's answer for the call. -/
structure Call where
  kind : CallKind
  text : String
  model : String
  image_path : Option String
  response : HttpResponse
deriving Repr

/-- The call does not raise: text calls never do, image calls do unless
the path is absent, falsy or resolving. -/
def Call.noRaise (fs : String → Option (List Nat)) (c : Call) : Bool :=
  match c.kind with
  | CallKind.textCall => true
  | CallKind.imageCall => imagePathOk c.image_path fs

/-- The history a single `execute` call leaves, given the history passed
in.  A raising image call leaves the passed history unchanged. -/
def stepCall (fs : String → Option (List Nat)) (h : Option (List Message)) (c : Call) :
    List Message :=
  match c.kind with
  | CallKind.textCall =>
      (TextRequestStrategy.execute c.text c.model h c.image_path c.response).history
  | CallKind.imageCall =>
      ((ImageRequestStrategy.execute c.text c.model h c.image_path fs c.response).history).getD
        (h.getD [])

/-- Running a sequence of `execute` calls, each passing the previously
built history back in (the first passes the given start, `none` for a
fresh session). -/
def runSession (fs : String → Option (List Nat)) :
    Option (List Message) → List Call → List Message
  | h, [] => h.getD []
  | h, c :: cs => runSession fs (some (stepCall fs h c)) cs

/-- The user message a (non-raising) call appends. -/
def Call.userMsg (fs : String → Option (List Nat)) (c : Call) : Message :=
  match c.kind with
  | CallKind.textCall => ⟨Role.user, Content.text c.text⟩
  | CallKind.imageCall => ⟨Role.user, Content.parts c.text (imageDataOf c.image_path fs)⟩

/-- A call's appended user message carries the user role. -/
theorem userMsg_role (fs : String → Option (List Nat)) (c : Call) :
    (c.userMsg fs).role = Role.user := by
  cases c with
  | mk kind text model image_path response => cases kind <;> rfl

/-- A non-raising call appends its user message, and the assistant reply
exactly on status 200, to the history passed in. -/
theorem stepCall_eq (fs : String → Option (List Nat)) (h : Option (List Message))
    (c : Call) (hra : c.noRaise fs = true) :
    stepCall fs h c =
      h.getD [] ++
        (if c.response.status_code = 200
          then [c.userMsg fs, ⟨Role.assistant, Content.text c.response.content⟩]
          else [c.userMsg fs]) := by
  cases c with
  | mk kind text model image_path response =>
    cases kind with
    | textCall =>
        simp only [stepCall, TextRequestStrategy.execute, Call.userMsg]
        cases h with
        | none => by_cases h200 : response.status_code = 200 <;> simp [h200]
        | some l => by_cases h200 : response.status_code = 200 <;> simp [h200]
    | imageCall =>
        simp only [Call.noRaise] at hra
        simp only [stepCall, ImageRequestStrategy.execute, Call.userMsg]
        rw [encodeImage_ok _ _ hra]
        cases h with
        | none => by_cases h200 : response.status_code = 200 <;> simp [h200]
        | some l => by_cases h200 : response.status_code = 200 <;> simp [h200]

/-- Splitting an alternation check across an append. -/
theorem rolesFrom_append (l1 l2 : List Message) (r : Role) :
    rolesFrom r (l1 ++ l2) = (rolesFrom r l1 && rolesFrom (nextExpected r l1) l2) := by
  induction l1 generalizing r with
  | nil => simp [rolesFrom, nextExpected]
  | cons m rest ih => simp [rolesFrom, nextExpected, ih, Bool.and_assoc]

/-- The expected role after an append. -/
theorem nextExpected_append (l1 l2 : List Message) (r : Role) :
    nextExpected r (l1 ++ l2) = nextExpected (nextExpected r l1) l2 := by
  induction l1 generalizing r with
  | nil => rfl
  | cons m rest ih => simp [nextExpected, ih]

/-- C3: for every `execute` call (text or image strategy) whose HTTP
response status is not 200, the call returns the string
`"Error: <status>"` as a value without raising, the assistant message is
not appended, and the history ends with only the appended user message. -/
theorem non200_returns_error_string (text model : String)
    (history : Option (List Message)) (image_path : Option String)
    (fs : String → Option (List Nat)) (response : HttpResponse)
    (hne : response.status_code ≠ 200) (hok : imagePathOk image_path fs = true) :
    (TextRequestStrategy.execute text model history image_path response).result
        = ExecResult.errorString ("Error: " ++ toString response.status_code)
    ∧ (TextRequestStrategy.execute text model history image_path response).history
        = history.getD [] ++ [⟨Role.user, Content.text text⟩]
    ∧ (ImageRequestStrategy.execute text model history image_path fs response).outcome
        = Except.ok (ExecResult.errorString ("Error: " ++ toString response.status_code))
    ∧ (ImageRequestStrategy.execute text model history image_path fs response).history
        = some (history.getD []
            ++ [⟨Role.user, Content.parts text (imageDataOf image_path fs)⟩]) := by
  have he := encodeImage_ok image_path fs hok
  cases history <;>
    simp [TextRequestStrategy.execute, ImageRequestStrategy.execute, he, hne]

/-- Concrete instance of `non200_returns_error_string`: a mocked 404
yields the string `"Error: 404"` and a one-message history. -/
theorem non200_returns_error_string_witness :
    (TextRequestStrategy.execute "q" "m" none none ⟨404, ""⟩).result
        = ExecResult.errorString "Error: 404"
    ∧ (TextRequestStrategy.execute "q" "m" none none ⟨404, ""⟩).history
        = [⟨Role.user, Content.text "q"⟩]
    ∧ (ImageRequestStrategy.execute "q" "m" none none (fun _ => none) ⟨404, ""⟩).outcome
        = Except.ok (ExecResult.errorString "Error: 404")
    ∧ (ImageRequestStrategy.execute "q" "m" none none (fun _ => none) ⟨404, ""⟩).history
        = some [⟨Role.user, Content.parts "q" ""⟩] := by
  have h := non200_returns_error_string "q" "m" none none (fun _ => none) ⟨404, ""⟩
    (by decide) rfl
  exact h

/-- C4: an image `execute` call with a non-empty path that does not
resolve raises the file-not-found error, issues no HTTP request, and
appends nothing to the history. -/
theorem image_missing_file_raises_before_request (text model : String)
    (history : Option (List Message)) (p : String)
    (fs : String → Option (List Nat)) (response : HttpResponse)
    (hp : p ≠ "") (hfs : fs p = none) :
    (ImageRequestStrategy.execute text model history (some p) fs response).outcome
        = Except.error ("Image file not found: " ++ p)
    ∧ (ImageRequestStrategy.execute text model history (some p) fs response).requests = []
    ∧ (ImageRequestStrategy.execute text model history (some p) fs response).history
        = history := by
  have hp2 : (p != "") = true := by simpa using hp
  simp [ImageRequestStrategy.execute, ImageRequestStrategy.encodeImage, hp2, hfs]

/-- Concrete instance of `image_missing_file_raises_before_request` at a
nonexistent `castle.jpg`. -/
theorem image_missing_file_raises_before_request_witness :
    (ImageRequestStrategy.execute "look" "pixtral-12b-2409" (some [])
        (some "castle.jpg") (fun _ => none) ⟨200, "hi"⟩).outcome
        = Except.error "Image file not found: castle.jpg"
    ∧ (ImageRequestStrategy.execute "look" "pixtral-12b-2409" (some [])
        (some "castle.jpg") (fun _ => none) ⟨200, "hi"⟩).requests = []
    ∧ (ImageRequestStrategy.execute "look" "pixtral-12b-2409" (some [])
        (some "castle.jpg") (fun _ => none) ⟨200, "hi"⟩).history = some [] := by
  have h := image_missing_file_raises_before_request "look" "pixtral-12b-2409"
    (some []) "castle.jpg" (fun _ => none) ⟨200, "hi"⟩ (by decide) rfl
  exact h

/-- C5: `change_strategy` on a kind other than `"text"` or `"image"`
raises the invalid-strategy error and leaves the facade, in particular its
active strategy, exactly as it was. -/
theorem change_strategy_invalid_kind (f : ChatFacade) (k : String)
    (h1 : k ≠ "text") (h2 : k ≠ "image") :
    f.change_strategy k = (Except.error "Invalid strategy type", f) := by
  simp [ChatFacade.change_strategy, h1, h2]

/-- Concrete instance of `change_strategy_invalid_kind` at kind
`"audio"` on the initial facade. -/
theorem change_strategy_invalid_kind_witness :
    ChatFacade.init.change_strategy "audio"
      = (Except.error "Invalid strategy type", ChatFacade.init) := by
  exact change_strategy_invalid_kind ChatFacade.init "audio" (by decide) (by decide)

/-- C6: with no strategy active, `ask_question` (leaving the state
untouched), `get_history`, `clear_history` and `select_model` all raise
the invalid-strategy error. -/
theorem no_strategy_all_ops_raise (f : ChatFacade) (text model : String)
    (image_path : Option String) (fs : String → Option (List Nat))
    (response : HttpResponse) (l_num : Int)
    (h : f.request_strategy = ActiveStrategy.noStrategy) :
    (f.ask_question text model image_path fs response).result
        = Except.error "Invalid strategy type"
    ∧ (f.ask_question text model image_path fs response).facade = f
    ∧ f.get_history = Except.error "Invalid strategy type"
    ∧ f.clear_history = (Except.error "Invalid strategy type", f)
    ∧ f.select_model l_num = Except.error "Invalid strategy type" := by
  simp [ChatFacade.ask_question, ChatFacade.get_history, ChatFacade.clear_history,
    ChatFacade.select_model, h]

/-- Concrete instance of `no_strategy_all_ops_raise` on the freshly
constructed facade. -/
theorem no_strategy_all_ops_raise_witness :
    (ChatFacade.init.ask_question "hello" "mistral-small-latest" none
        (fun _ => none) ⟨200, "hi"⟩).result = Except.error "Invalid strategy type"
    ∧ (ChatFacade.init.ask_question "hello" "mistral-small-latest" none
        (fun _ => none) ⟨200, "hi"⟩).facade = ChatFacade.init
    ∧ ChatFacade.init.get_history = Except.error "Invalid strategy type"
    ∧ ChatFacade.init.clear_history = (Except.error "Invalid strategy type", ChatFacade.init)
    ∧ ChatFacade.init.select_model 1 = Except.error "Invalid strategy type" := by
  have h := no_strategy_all_ops_raise ChatFacade.init "hello" "mistral-small-latest"
    none (fun _ => none) ⟨200, "hi"⟩ 1 rfl
  exact h

/-- C7: with a strategy active, `clear_history` makes a subsequent
`get_history` return the empty list, and the other strategy's stored
history is not modified. -/
theorem clear_history_resets_only_active (f : ChatFacade) :
    (f.request_strategy = ActiveStrategy.textStrategy →
        (f.clear_history).2.get_history = Except.ok (some [])
        ∧ (f.clear_history).2.image_history = f.image_history)
    ∧ (f.request_strategy = ActiveStrategy.imageStrategy →
        (f.clear_history).2.get_history = Except.ok (some [])
        ∧ (f.clear_history).2.text_history = f.text_history) := by
  constructor <;> intro h <;>
    simp [ChatFacade.clear_history, ChatFacade.get_history, h]

/-- Concrete instance of `clear_history_resets_only_active` for each of
the two strategies, after some conversation state. -/
theorem clear_history_resets_only_active_witness :
    ((((ChatFacade.init.change_strategy "text").2.clear_history).2.get_history
        = Except.ok (some []))
      ∧ (((ChatFacade.init.change_strategy "text").2.clear_history).2.image_history
        = (ChatFacade.init.change_strategy "text").2.image_history))
    ∧ ((((ChatFacade.init.change_strategy "image").2.clear_history).2.get_history
        = Except.ok (some []))
      ∧ (((ChatFacade.init.change_strategy "image").2.clear_history).2.text_history
        = (ChatFacade.init.change_strategy "image").2.text_history)) := by
  exact ⟨(clear_history_resets_only_active (ChatFacade.init.change_strategy "text").2).1 rfl,
    (clear_history_resets_only_active (ChatFacade.init.change_strategy "image").2).2 rfl⟩

/-- C8: with an active strategy whose catalog has `N` entries,
`select_model` returns the 1-based `i`-th entry for `1 ≤ i ≤ N` and
raises the invalid-model error outside that range; with the text strategy
active on the facade's catalog, index 1 gives `"mistral-small-latest"`. -/
theorem select_model_one_based (f : ChatFacade) (i : Int) :
    (f.request_strategy = ActiveStrategy.textStrategy →
      ((1 ≤ i ∧ i ≤ (f.models_text.length : Int)) →
          ∃ m, f.select_model i = Except.ok m
            ∧ f.models_text[(i - 1).toNat]? = some m)
      ∧ (¬(1 ≤ i ∧ i ≤ (f.models_text.length : Int)) →
          f.select_model i = Except.error "Invalid model number"))
    ∧ (f.request_strategy = ActiveStrategy.imageStrategy →
      ((1 ≤ i ∧ i ≤ (f.models_image.length : Int)) →
          ∃ m, f.select_model i = Except.ok m
            ∧ f.models_image[(i - 1).toNat]? = some m)
      ∧ (¬(1 ≤ i ∧ i ≤ (f.models_image.length : Int)) →
          f.select_model i = Except.error "Invalid model number"))
    ∧ (f.request_strategy = ActiveStrategy.textStrategy →
        f.models_text = ChatFacade.init.models_text →
        f.select_model 1 = Except.ok "mistral-small-latest") := by
  refine ⟨fun h => ⟨fun hr => ?_, fun hr => ?_⟩,
    fun h => ⟨fun hr => ?_, fun hr => ?_⟩, fun h hm => ?_⟩
  · have hlt : (i - 1).toNat < f.models_text.length := by omega
    refine ⟨f.models_text.getD (i - 1).toNat "", ?_, ?_⟩
    · simp [ChatFacade.select_model, h, hr]
    · rw [List.getElem?_eq_getElem hlt, List.getD_eq_getElem _ _ hlt]
  · simp [ChatFacade.select_model, h, hr]
  · have hlt : (i - 1).toNat < f.models_image.length := by omega
    refine ⟨f.models_image.getD (i - 1).toNat "", ?_, ?_⟩
    · simp [ChatFacade.select_model, h, hr]
    · rw [List.getElem?_eq_getElem hlt, List.getD_eq_getElem _ _ hlt]
  · simp [ChatFacade.select_model, h, hr]
  · simp only [ChatFacade.select_model, h]
    rw [hm]
    rw [if_pos (by decide :
      (1 : Int) ≤ 1 ∧ (1 : Int) ≤ (ChatFacade.init.models_text.length : Int))]
    rfl

/-- Concrete instance of `select_model_one_based`: with the text strategy
active, index 2 is in range and indexes the catalog, index 5 is rejected,
and index 1 returns `"mistral-small-latest"`. -/
theorem select_model_one_based_witness :
    (∃ m, (ChatFacade.init.change_strategy "text").2.select_model 2 = Except.ok m
        ∧ (ChatFacade.init.change_strategy "text").2.models_text[((2 : Int) - 1).toNat]?
          = some m)
    ∧ (ChatFacade.init.change_strategy "text").2.select_model 5
        = Except.error "Invalid model number"
    ∧ (ChatFacade.init.change_strategy "text").2.select_model 1
        = Except.ok "mistral-small-latest" := by
  refine ⟨((select_model_one_based (ChatFacade.init.change_strategy "text").2 2).1
      rfl).1 (by decide),
    ((select_model_one_based (ChatFacade.init.change_strategy "text").2 5).1
      rfl).2 (by decide),
    (select_model_one_based (ChatFacade.init.change_strategy "text").2 1).2.2 rfl rfl⟩

/-- C1 as stated is false: driven through `ChatFacade.ask_question`, the
second successful (HTTP 200) text call leaves a history of length 2
while the history before that call already had length 2 — the length does
not increase by 2 on every call of a multi-turn session, because
`ask_question` passes no history and `execute` rebinds the stored history
to a fresh list. -/
theorem facade_second_call_not_plus_two :
    (((((ChatFacade.init.change_strategy "text").2.ask_question "hello"
          "mistral-small-latest" none (fun _ => none) ⟨200, "hi"⟩).facade.ask_question
          "and now" "mistral-small-latest" none (fun _ => none)
          ⟨200, "more"⟩).facade.text_history.getD []).length = 2)
    ∧ ((((ChatFacade.init.change_strategy "text").2.ask_question "hello"
          "mistral-small-latest" none (fun _ => none)
          ⟨200, "hi"⟩).facade.text_history.getD []).length = 2)
    ∧ ¬(((((ChatFacade.init.change_strategy "text").2.ask_question "hello"
          "mistral-small-latest" none (fun _ => none) ⟨200, "hi"⟩).facade.ask_question
          "and now" "mistral-small-latest" none (fun _ => none)
          ⟨200, "more"⟩).facade.text_history.getD []).length
        = ((((ChatFacade.init.change_strategy "text").2.ask_question "hello"
          "mistral-small-latest" none (fun _ => none)
          ⟨200, "hi"⟩).facade.text_history.getD []).length + 2)) := by
  decide

/-- C1 (amended): a successful (HTTP 200) text `execute` call leaves the
passed-in history (empty when `None`) extended by exactly one user message
followed by one assistant message — a length increase of 2 over the passed
history; since `ChatFacade.ask_question` passes no history, each
successful call through the facade leaves a stored history of length
exactly 2 rather than growing it. -/
theorem text_success_appends_exactly_two (text model : String)
    (history : Option (List Message)) (image_path : Option String)
    (fs : String → Option (List Nat)) (response : HttpResponse) (f : ChatFacade)
    (h200 : response.status_code = 200)
    (hactive : f.request_strategy = ActiveStrategy.textStrategy) :
    (TextRequestStrategy.execute text model history image_path response).history
        = history.getD [] ++ [⟨Role.user, Content.text text⟩,
            ⟨Role.assistant, Content.text response.content⟩]
    ∧ (TextRequestStrategy.execute text model history image_path response).history.length
        = (history.getD []).length + 2
    ∧ (f.ask_question text model image_path fs response).facade.text_history
        = some [⟨Role.user, Content.text text⟩,
            ⟨Role.assistant, Content.text response.content⟩] := by
  refine ⟨?_, ?_, ?_⟩
  · cases history <;> simp [TextRequestStrategy.execute, h200]
  · cases history <;> simp [TextRequestStrategy.execute, h200]
  · simp [ChatFacade.ask_question, hactive, TextRequestStrategy.execute, h200]

/-- Concrete instance of `text_success_appends_exactly_two`: a mocked 200
with content `"hi"` turns a seeded two-message history into four messages,
and through the facade leaves `[{user, hello}, {assistant, hi}]`. -/
theorem text_success_appends_exactly_two_witness :
    (TextRequestStrategy.execute "hello" "mistral-small-latest"
        (some [⟨Role.user, Content.text "a"⟩, ⟨Role.assistant, Content.text "b"⟩])
        none ⟨200, "hi"⟩).history
      = [⟨Role.user, Content.text "a"⟩, ⟨Role.assistant, Content.text "b"⟩]
          ++ [⟨Role.user, Content.text "hello"⟩, ⟨Role.assistant, Content.text "hi"⟩]
    ∧ (TextRequestStrategy.execute "hello" "mistral-small-latest"
        (some [⟨Role.user, Content.text "a"⟩, ⟨Role.assistant, Content.text "b"⟩])
        none ⟨200, "hi"⟩).history.length
      = ([⟨Role.user, Content.text "a"⟩, ⟨Role.assistant, Content.text "b"⟩] :
          List Message).length + 2
    ∧ ((ChatFacade.init.change_strategy "text").2.ask_question "hello"
        "mistral-small-latest" none (fun _ => none) ⟨200, "hi"⟩).facade.text_history
      = some [⟨Role.user, Content.text "hello"⟩, ⟨Role.assistant, Content.text "hi"⟩] := by
  have h := text_success_appends_exactly_two "hello" "mistral-small-latest"
    (some [⟨Role.user, Content.text "a"⟩, ⟨Role.assistant, Content.text "b"⟩])
    none (fun _ => none) ⟨200, "hi"⟩ (ChatFacade.init.change_strategy "text").2
    rfl rfl
  exact h

/-- C2: every `ask_question` through the facade hands the active
strategy's `execute` no history, so `execute` rebinds the stored history
to a fresh list; immediately afterwards `get_history` returns a list of
length exactly 2 on HTTP 200 and exactly 1 otherwise, however many turns
preceded the call (image calls assumed not to raise). -/
theorem ask_question_history_len_one_or_two (f : ChatFacade) (text model : String)
    (image_path : Option String) (fs : String → Option (List Nat))
    (response : HttpResponse)
    (hactive : f.request_strategy ≠ ActiveStrategy.noStrategy)
    (hok : imagePathOk image_path fs = true) :
    ∃ l, (f.ask_question text model image_path fs response).facade.get_history
          = Except.ok (some l)
      ∧ l.length = (if response.status_code = 200 then 2 else 1) := by
  have he := encodeImage_ok image_path fs hok
  cases hs : f.request_strategy with
  | noStrategy => exact absurd hs hactive
  | textStrategy =>
      by_cases h200 : response.status_code = 200
      · refine ⟨([⟨Role.user, Content.text text⟩,
            ⟨Role.assistant, Content.text response.content⟩] : List Message), ?_, ?_⟩
        · simp [ChatFacade.ask_question, ChatFacade.get_history, hs,
            TextRequestStrategy.execute, h200]
        · simp [h200]
      · refine ⟨([⟨Role.user, Content.text text⟩] : List Message), ?_, ?_⟩
        · simp [ChatFacade.ask_question, ChatFacade.get_history, hs,
            TextRequestStrategy.execute, h200]
        · simp [h200]
  | imageStrategy =>
      by_cases h200 : response.status_code = 200
      · refine ⟨([⟨Role.user, Content.parts text (imageDataOf image_path fs)⟩,
            ⟨Role.assistant, Content.text response.content⟩] : List Message), ?_, ?_⟩
        · simp [ChatFacade.ask_question, ChatFacade.get_history, hs,
            ImageRequestStrategy.execute, he, h200]
        · simp [h200]
      · refine ⟨([⟨Role.user, Content.parts text (imageDataOf image_path fs)⟩] :
            List Message), ?_, ?_⟩
        · simp [ChatFacade.ask_question, ChatFacade.get_history, hs,
            ImageRequestStrategy.execute, he, h200]
        · simp [h200]

/-- Concrete instance of `ask_question_history_len_one_or_two`: a third
text turn after two successful ones still leaves exactly 2 messages. -/
theorem ask_question_history_len_one_or_two_witness :
    ∃ l, (((((ChatFacade.init.change_strategy "text").2.ask_question "one"
          "mistral-small-latest" none (fun _ => none) ⟨200, "r1"⟩).facade.ask_question
          "two" "mistral-small-latest" none (fun _ => none)
          ⟨200, "r2"⟩).facade.ask_question "three" "mistral-small-latest" none
          (fun _ => none) ⟨200, "r3"⟩).facade.get_history = Except.ok (some l))
      ∧ l.length = (if (200 : Nat) = 200 then 2 else 1) := by
  exact ask_question_history_len_one_or_two
    ((((ChatFacade.init.change_strategy "text").2.ask_question "one"
        "mistral-small-latest" none (fun _ => none) ⟨200, "r1"⟩).facade.ask_question
        "two" "mistral-small-latest" none (fun _ => none) ⟨200, "r2"⟩).facade)
    "three" "mistral-small-latest" none (fun _ => none) ⟨200, "r3"⟩
    (by decide) rfl

/-- C9: every (non-raising) image `execute` call appends a user message
with the two-part content (text part, image part); the image part is the
non-empty `data:image/jpeg;base64,` URI of the file's bytes when the path
is given and the file exists, and the empty string when the path is
absent. -/
theorem image_user_message_two_parts (text model : String)
    (history : Option (List Message)) (image_path : Option String)
    (fs : String → Option (List Nat)) (response : HttpResponse)
    (hok : imagePathOk image_path fs = true) :
    (∃ rest, (ImageRequestStrategy.execute text model history image_path fs response).history
        = some (history.getD []
            ++ (⟨Role.user, Content.parts text (imageDataOf image_path fs)⟩ :: rest)))
    ∧ (∀ p bytes, image_path = some p → p ≠ "" → fs p = some bytes →
        imageDataOf image_path fs = "data:image/jpeg;base64," ++ b64encodeStr bytes
        ∧ imageDataOf image_path fs ≠ "")
    ∧ (image_path = none → imageDataOf image_path fs = "") := by
  have he := encodeImage_ok image_path fs hok
  refine ⟨?_, ?_, ?_⟩
  · by_cases h200 : response.status_code = 200
    · refine ⟨([⟨Role.assistant, Content.text response.content⟩] : List Message), ?_⟩
      cases history <;> simp [ImageRequestStrategy.execute, he, h200]
    · refine ⟨([] : List Message), ?_⟩
      cases history <;> simp [ImageRequestStrategy.execute, he, h200]
  · intro p bytes hp hpne hfs
    subst hp
    have hpb : (p != "") = true := by simpa using hpne
    have hval : imageDataOf (some p) fs = "data:image/jpeg;base64," ++ b64encodeStr bytes := by
      simp [imageDataOf, hpb, hfs]
    refine ⟨hval, ?_⟩
    rw [hval]
    intro hcon
    have hlen := congrArg String.length hcon
    rw [String.length_append] at hlen
    have hfix : ("data:image/jpeg;base64," : String).length = 23 := rfl
    have hnil : ("" : String).length = 0 := rfl
    omega
  · intro hp
    subst hp
    rfl

/-- Concrete instance of `image_user_message_two_parts`: a resolving path
whose file holds bytes `[255, 0, 16]`, and separately an absent path. -/
theorem image_user_message_two_parts_witness :
    (∃ rest, (ImageRequestStrategy.execute "look" "pixtral-12b-2409" none
        (some "a.jpg") (fun p => if p = "a.jpg" then some [255, 0, 16] else none)
        ⟨200, "hi"⟩).history
      = some ([]
          ++ (⟨Role.user, Content.parts "look"
              (imageDataOf (some "a.jpg")
                (fun p => if p = "a.jpg" then some [255, 0, 16] else none))⟩ :: rest)))
    ∧ (∀ p bytes, (some "a.jpg" : Option String) = some p → p ≠ "" →
        (fun p => if p = "a.jpg" then some [255, 0, 16] else none) p = some bytes →
        imageDataOf (some "a.jpg")
            (fun p => if p = "a.jpg" then some [255, 0, 16] else none)
          = "data:image/jpeg;base64," ++ b64encodeStr bytes
        ∧ imageDataOf (some "a.jpg")
            (fun p => if p = "a.jpg" then some [255, 0, 16] else none) ≠ "")
    ∧ ((some "a.jpg" : Option String) = none →
        imageDataOf (some "a.jpg")
          (fun p => if p = "a.jpg" then some [255, 0, 16] else none) = "") := by
  exact image_user_message_two_parts "look" "pixtral-12b-2409" none (some "a.jpg")
    (fun p => if p = "a.jpg" then some [255, 0, 16] else none) ⟨200, "hi"⟩ rfl

/-- C10 as stated is false: a text call that fails with a 404 leaves a
history ending in a user message, and passing that history back into a
subsequent successful call appends a second consecutive user message, so
the roles of the produced history do not alternate. -/
theorem alternation_fails_after_non200 :
    alternatesFromUser (runSession (fun _ => none) none
      [⟨CallKind.textCall, "a", "m", none, ⟨404, ""⟩⟩,
       ⟨CallKind.textCall, "b", "m", none, ⟨200, "r"⟩⟩]) = false := by
  decide

/-- Alternation check for the two messages a successful call appends. -/
theorem rolesFrom_two (fs : String → Option (List Nat)) (c : Call) (s : String) :
    rolesFrom Role.user [c.userMsg fs, ⟨Role.assistant, Content.text s⟩] = true := by
  simp [rolesFrom, flipRole, userMsg_role]

/-- Alternation check for the single message a failed call appends. -/
theorem rolesFrom_one (fs : String → Option (List Nat)) (c : Call) :
    rolesFrom Role.user [c.userMsg fs] = true := by
  simp [rolesFrom, userMsg_role]

/-- Auxiliary induction for the amended C10: from a history that
alternates and expects a user message next, a run whose calls all succeed
except possibly the last (and none of which raises) yields an alternating
history. -/
theorem runSession_alternates_aux (fs : String → Option (List Nat))
    (cs : List Call) (c : Call) (h : Option (List Message))
    (hok : ∀ x ∈ cs, x.response.status_code = 200 ∧ x.noRaise fs = true)
    (hlast : c.noRaise fs = true)
    (hh1 : rolesFrom Role.user (h.getD []) = true)
    (hh2 : nextExpected Role.user (h.getD []) = Role.user) :
    alternatesFromUser (runSession fs h (cs ++ [c])) = true := by
  induction cs generalizing h with
  | nil =>
      simp only [List.nil_append, runSession, Option.getD_some]
      rw [alternatesFromUser, stepCall_eq fs h c hlast, rolesFrom_append, hh1, hh2]
      by_cases h200 : c.response.status_code = 200
      · rw [if_pos h200, rolesFrom_two]
        rfl
      · rw [if_neg h200, rolesFrom_one]
        rfl
  | cons d ds ih =>
      obtain ⟨h200, hra⟩ := hok d (by simp)
      simp only [List.cons_append, runSession]
      have hd : stepCall fs h d
          = h.getD [] ++ [d.userMsg fs, ⟨Role.assistant, Content.text d.response.content⟩] := by
        rw [stepCall_eq fs h d hra, if_pos h200]
      apply ih
      · intro x hx
        exact hok x (by simp [hx])
      · simp only [Option.getD_some, hd]
        rw [rolesFrom_append, hh1, hh2, rolesFrom_two]
        rfl
      · simp only [Option.getD_some, hd]
        rw [nextExpected_append, hh2]
        rfl

/-- C10 (amended): for every history produced by a sequence of `execute`
calls that pass the previously built history back in, in which no call
raises and every call except possibly the last receives HTTP 200, the
roles alternate user/assistant starting with user.  (As
`alternation_fails_after_non200` shows, continuing after a failed call
breaks alternation, so the success restriction on the non-final calls is
necessary.) -/
theorem alternation_holds_when_prefix_successful (fs : String → Option (List Nat))
    (cs : List Call) (c : Call)
    (hok : ∀ x ∈ cs, x.response.status_code = 200 ∧ x.noRaise fs = true)
    (hlast : c.noRaise fs = true) :
    alternatesFromUser (runSession fs none (cs ++ [c])) = true :=
  runSession_alternates_aux fs cs c none hok hlast rfl rfl

/-- Concrete instance of `alternation_holds_when_prefix_successful`: a
successful text turn, a successful image turn, then a failing text turn
still alternate. -/
theorem alternation_holds_when_prefix_successful_witness :
    alternatesFromUser (runSession (fun _ => none) none
      ([⟨CallKind.textCall, "a", "m", none, ⟨200, "r1"⟩⟩,
        ⟨CallKind.imageCall, "b", "m", none, ⟨200, "r2"⟩⟩] ++
       [⟨CallKind.textCall, "c", "m", none, ⟨404, ""⟩⟩])) = true := by
  apply alternation_holds_when_prefix_successful
  · intro x hx
    simp only [List.mem_cons, List.not_mem_nil, or_false] at hx
    rcases hx with hx | hx <;> subst hx <;> exact ⟨rfl, rfl⟩
  · rfl

end MistralApi
